import Mathlib

/-!
Verification of the per-vehicle connection lifecycle and field-normalization
pipeline of the teslamate-mqtt-bridge repository (tesla_mqtt_bridge.py),
shallowly embedded in Lean 4.

Python floats are modelled as rationals (ℚ), Python ints as ℤ; Python's
`round(x, 2)` is modelled exactly (round half to even on the rational value).
Fallible operations return Option; code paths that raise an uncaught
exception are modelled with Except.
-/

namespace TeslaBridge

/-! ## Numeric model: Python round -/

/-- Python's `round` to the nearest integer: round half to even. -/
def roundHalfEven (q : ℚ) : ℤ :=
  let f : ℤ := ⌊q⌋
  let r : ℚ := q - f
  if r < 1/2 then f
  else if 1/2 < r then f + 1
  else if f % 2 = 0 then f else f + 1

/-- Python's `round(x, 2)`. -/
def round2 (q : ℚ) : ℚ := (roundHalfEven (q * 100) : ℚ) / 100

/-- Truncation toward zero, Python's `int(float)`. -/
def truncToward0 (q : ℚ) : ℤ := if 0 ≤ q then ⌊q⌋ else -⌊-q⌋

/-! ## Number parsing (Python `int(s)` / `float(s)` on strings) -/

def digitsToNat (l : List Char) : ℕ :=
  l.foldl (fun a c => a * 10 + (c.toNat - 48)) 0

/-- Parse Python `int(s)`: optional sign followed by one or more digits.
(Leading/trailing whitespace and underscore separators are not modelled.) -/
def pyParseInt (s : String) : Option ℤ :=
  let core : List Char → Option ℤ := fun l =>
    if l ≠ [] ∧ l.all Char.isDigit then some (digitsToNat l) else Option.none
  match s.data with
  | '-' :: rest => (core rest).map (fun z => -z)
  | '+' :: rest => core rest
  | l => core l

/-- The decomposed content of a float literal: sign, integer-part digits,
fraction digits with their count, exponent. All components are in decidable
types so that parsing of concrete strings evaluates by `decide`. -/
structure FloatParts where
  neg : Bool
  intPart : ℕ
  fracPart : ℕ
  fracLen : ℕ
  expo : ℤ
deriving DecidableEq, Repr

/-- Parse the exponent suffix of a float literal. -/
def parseExpSuffix (l : List Char) : Option ℤ :=
  match l with
  | [] => some 0
  | c :: rest =>
    if c = 'e' ∨ c = 'E' then pyParseInt (String.mk rest)
    else Option.none

/-- Parse an unsigned float literal: digits, optional `.` and fraction,
optional exponent. -/
def parseUnsignedFloat (l : List Char) : Option (ℕ × ℕ × ℕ × ℤ) :=
  let ip := l.takeWhile Char.isDigit
  let r1 := l.dropWhile Char.isDigit
  match r1 with
  | '.' :: r2 =>
    let fp := r2.takeWhile Char.isDigit
    let r3 := r2.dropWhile Char.isDigit
    if ip = [] ∧ fp = [] then Option.none
    else (parseExpSuffix r3).map (fun e => (digitsToNat ip, digitsToNat fp, fp.length, e))
  | _ =>
    if ip = [] then Option.none
    else (parseExpSuffix r1).map (fun e => (digitsToNat ip, 0, 0, e))

/-- Decompose a Python float literal: optional sign then an unsigned float
literal. (`inf`/`nan` literals and whitespace are not modelled.) -/
def parseFloatParts (s : String) : Option FloatParts :=
  match s.data with
  | '-' :: rest => (parseUnsignedFloat rest).map
      (fun p => ⟨true, p.1, p.2.1, p.2.2.1, p.2.2.2⟩)
  | '+' :: rest => (parseUnsignedFloat rest).map
      (fun p => ⟨false, p.1, p.2.1, p.2.2.1, p.2.2.2⟩)
  | l => (parseUnsignedFloat l).map
      (fun p => ⟨false, p.1, p.2.1, p.2.2.1, p.2.2.2⟩)

/-- The rational value of a decomposed float literal. -/
def partsToRat (p : FloatParts) : ℚ :=
  (if p.neg then -1 else 1) *
    (((p.intPart : ℚ) + (p.fracPart : ℚ) / (10 : ℚ) ^ p.fracLen) * (10 : ℚ) ^ p.expo)

/-- Parse Python `float(s)`. -/
def pyParseFloat (s : String) : Option ℚ :=
  (parseFloatParts s).map partsToRat

/-! ## camel_to_snake -/

/-- `[A-Z]` of the two regexes. -/
def isUpperAZ (c : Char) : Bool := 65 ≤ c.toNat && c.toNat ≤ 90

/-- `[a-z]` of the two regexes. -/
def isLowerAZ (c : Char) : Bool := 97 ≤ c.toNat && c.toNat ≤ 122

/-- `[a-z0-9]` of the second regex. -/
def isLowerOrDigit (c : Char) : Bool := isLowerAZ c || (48 ≤ c.toNat && c.toNat ≤ 57)

/-- First substitution of `camel_to_snake`:
`re.sub(r'([A-Z][A-Z]+)([A-Z][a-z])', r'\1_\2', name)` — in a maximal run of
k ≥ 3 uppercase letters followed by a lowercase letter, an underscore is
inserted before the last uppercase letter; scanning resumes after the
lowercase letter (non-overlapping matches). -/
def sub1 : List Char → List Char
  | a :: b :: c :: d :: t =>
    if isUpperAZ a && isUpperAZ b && isUpperAZ c && isLowerAZ d then
      a :: b :: '_' :: c :: d :: sub1 t
    else
      a :: sub1 (b :: c :: d :: t)
  | l => l

/-- Second substitution of `camel_to_snake`:
`re.sub(r'([a-z0-9])([A-Z])', r'\1_\2', s1)` — an underscore is inserted
between a lowercase letter or digit and a following uppercase letter;
scanning resumes after the uppercase letter. -/
def sub2 : List Char → List Char
  | a :: b :: t =>
    if isLowerOrDigit a && isUpperAZ b then
      a :: '_' :: b :: sub2 t
    else
      a :: sub2 (b :: t)
  | l => l

/-- `camel_to_snake`: the two regex substitutions followed by `.lower()`. -/
def camel_to_snake (s : String) : String :=
  String.mk (((sub2 (sub1 s.data)).map Char.toLower))

/-! ## Unit conversion constants -/

/-- Miles-to-kilometres factor 1.60934. -/
def mileKm : ℚ := 160934 / 100000

/-! ## String helpers (kernel-computable counterparts of Python's
`str.strip`, `str.lower`, `str.startswith`, substring `in`) -/

/-- Python `s.strip()`. -/
def pyStrip (s : String) : String :=
  String.mk (((s.data.dropWhile Char.isWhitespace).reverse.dropWhile
    Char.isWhitespace).reverse)

/-- Python `s.lower()` (ASCII). -/
def pyLower (s : String) : String := String.mk (s.data.map Char.toLower)

/-- Python `s.startswith(p)`. -/
def pyStartsWith (s p : String) : Bool := p.data.isPrefixOf s.data

/-- Python `needle in hay` for strings: substring containment. -/
def pySubstr (needle hay : String) : Prop := needle.data <:+: hay.data

instance (n h : String) : Decidable (pySubstr n h) :=
  inferInstanceAs (Decidable (n.data <:+: h.data))

/-- Zero-padded fixed-width decimal rendering of a natural number. -/
def padZeros (k : ℕ) (n : ℕ) : String :=
  let s := toString n
  String.mk (List.replicate (k - s.length) '0') ++ s

/-- Python `repr`/`str` of a float whose value is the rational `q`: exact
decimal expansion when the denominator is a power of 2 and 5 (every Python
float is), `n.0` for integral values. (Only the presence of `.` and
non-emptiness of this rendering are relied on by the pipeline.) -/
def pyReprFloat (q : ℚ) : String :=
  if q.den = 1 then toString q.num ++ ".0"
  else
    match (List.range 64).find? (fun k => (10 : ℕ) ^ k % q.den = 0) with
    | some k =>
      let n := (q * (10 : ℚ) ^ k).num.natAbs
      (if q.num < 0 then "-" else "") ++
        toString (n / 10 ^ k) ++ "." ++ padZeros k (n % 10 ^ k)
    | Option.none => toString q.num ++ "/" ++ toString q.den  -- unreachable for float values

/-! ## JSON model

A parsed JSON value as `json.loads` produces it (numbers carry their
rational value; `den = 1` stands for a JSON integer). -/

inductive Json
  | null
  | jbool (b : Bool)
  | num (q : ℚ)
  | jstr (s : String)
  | arr (l : List Json)
  | obj (l : List (String × Json))

mutual

/-- `json.dumps` (string escaping inside serialized strings is not modelled;
only the shape and non-emptiness of the output are relied on). -/
def jsonDumps : Json → String
  | Json.null => "null"
  | Json.jbool b => if b then "true" else "false"
  | Json.num q => if q.den = 1 then toString q.num else pyReprFloat q
  | Json.jstr s => "\"" ++ s ++ "\""
  | Json.arr l => "[" ++ jsonDumpsArr l ++ "]"
  | Json.obj l => "\x7b" ++ jsonDumpsObj l ++ "\x7d"

def jsonDumpsArr : List Json → String
  | [] => ""
  | [j] => jsonDumps j
  | j :: t => jsonDumps j ++ ", " ++ jsonDumpsArr t

def jsonDumpsObj : List (String × Json) → String
  | [] => ""
  | [(k, j)] => "\"" ++ k ++ "\": " ++ jsonDumps j
  | (k, j) :: t => "\"" ++ k ++ "\": " ++ jsonDumps j ++ ", " ++ jsonDumpsObj t

end

/-- `isinstance(j, dict)` for a parsed JSON value. -/
def isDict : Json → Bool
  | Json.obj _ => true
  | _ => false

/-- Python truthiness `bool(j)` of a parsed JSON value. -/
def jsonTruthy : Json → Bool
  | Json.null => false
  | Json.jbool b => b
  | Json.num q => decide (q ≠ 0)
  | Json.jstr s => s ≠ ""
  | Json.arr l => !l.isEmpty
  | Json.obj l => !l.isEmpty

/-! ## Python value model

A Python value as it flows through the converter: `None`, a string, an int,
a float (as ℚ), a bool, or a structured value that arrived as parsed JSON
(the `locationValue` payload is passed through as-is). -/

inductive PyVal
  | none
  | str (s : String)
  | int (z : ℤ)
  | float (q : ℚ)
  | bool (b : Bool)
  | jsonv (j : Json)

/-- Python `str(value)`. (For a structured value the JSON serialization
stands in for Python's `repr`; only non-emptiness is relied on.) -/
def pyStrOf : PyVal → String
  | PyVal.none => "None"
  | PyVal.str s => s
  | PyVal.int z => toString z
  | PyVal.float q => pyReprFloat q
  | PyVal.bool b => if b then "True" else "False"
  | PyVal.jsonv j => jsonDumps j

/-- `value is None or value == ""` — the empty-input test shared by the
conversion helpers. -/
def isNoneOrEmpty : PyVal → Bool
  | PyVal.none => true
  | PyVal.str s => s = ""
  | _ => false

/-- `'.' in str(value)`: a float's textual form always carries a dot. -/
def strHasDot : PyVal → Bool
  | PyVal.float _ => true
  | PyVal.str s => s.data.contains '.'
  | _ => false

/-- Python `float(value)`: `Option.none` models a raised
`ValueError`/`TypeError`. -/
def pyFloatOf : PyVal → Option ℚ
  | PyVal.float q => some q
  | PyVal.int z => some (z : ℚ)
  | PyVal.str s => pyParseFloat s
  | PyVal.bool b => some (if b then 1 else 0)
  | _ => Option.none

/-- Python `int(value)` (truncating for floats). -/
def pyIntOf : PyVal → Option ℤ
  | PyVal.int z => some z
  | PyVal.float q => some (truncToward0 q)
  | PyVal.str s => pyParseInt s
  | PyVal.bool b => some (if b then 1 else 0)
  | _ => Option.none

/-- Python `f"{value:.2f}"`. -/
def formatFloat2 (q : ℚ) : String :=
  let n := roundHalfEven (q * 100)
  (if n < 0 then "-" else "") ++ toString (n.natAbs / 100) ++ "." ++
    padZeros 2 (n.natAbs % 100)

/-! ## Field tables (module-level constants of tesla_mqtt_bridge.py) -/

def DISTANCE_FIELDS : List (String × String) := [
  ("EstBatteryRange", "battery_range_estimated_km"),
  ("IdealBatteryRange", "battery_range_ideal_km"),
  ("RatedRange", "battery_range_rated_km"),
  ("RangeDisplay", "battery_range_display_km"),
  ("MilesToArrival", "navigation_distance_remaining_km"),
  ("MilesRemaining", "navigation_distance_remaining_km"),
  ("Odometer", "odometer_km"),
  ("ChargeRateMilePerHour", "charge_rate_kmh"),
  ("DistanceToArrival", "navigation_distance_remaining_km")]

def SPEED_FIELDS : List (String × String) := [
  ("VehicleSpeed", "speed_kmh"),
  ("CruiseSetSpeed", "cruise_speed_kmh"),
  ("CurrentLimitMph", "speed_limit_kmh"),
  ("SpeedLimit", "speed_limit_kmh"),
  ("SpeedLimitDisplay", "speed_limit_display_kmh"),
  ("SpeedLimitMode", "speed_limit_mode_kmh")]

def TEMPERATURE_FIELDS : List String := ["OutsideTemp", "InsideTemp"]

def LOCATION_FIELDS : List String := ["Location", "DestinationLocation", "OriginLocation"]

/-! ## TeslaMetricConverter -/

/-- The converter's loaded field metadata (`field_mappings`, `field_types`,
`field_categories`). It is loaded from an external CSV at startup; on load
failure `_set_default_mappings` installs the built-in table below. -/
structure Metadata where
  mappings : List (String × String)
  types : List (String × String)
  categories : List (String × String)

/-- The built-in fallback table installed by `_set_default_mappings`. -/
def defaultMetadata : Metadata where
  mappings :=
    DISTANCE_FIELDS ++ SPEED_FIELDS ++
      LOCATION_FIELDS.map (fun f => (f, camel_to_snake f)) ++
      TEMPERATURE_FIELDS.map (fun f => (f, camel_to_snake f))
  types :=
    DISTANCE_FIELDS.map (fun p => (p.1, "real")) ++
      SPEED_FIELDS.map (fun p => (p.1, "real")) ++
      LOCATION_FIELDS.map (fun f => (f, "object")) ++
      TEMPERATURE_FIELDS.map (fun f => (f, "real"))
  categories :=
    DISTANCE_FIELDS.map (fun p => (p.1, "distance")) ++
      SPEED_FIELDS.map (fun p => (p.1, "speed")) ++
      LOCATION_FIELDS.map (fun f => (f, "location")) ++
      TEMPERATURE_FIELDS.map (fun f => (f, "temperature"))

/-- `get_mqtt_topic`: the mapped topic, or the mechanically derived name for
fields absent from the table. (The one-time "new sensor" discovery notice is
a logging side effect with no influence on the returned topic.) -/
def get_mqtt_topic (md : Metadata) (f : String) : String :=
  (md.mappings.lookup f).getD (camel_to_snake f)

/-- `miles_to_km`: `None`/empty input or parse failure yields `None`,
otherwise `round(x * 1.60934, 2)`. -/
def miles_to_km (v : PyVal) : PyVal :=
  if isNoneOrEmpty v then PyVal.none
  else
    match pyFloatOf v with
    | some q => PyVal.float (round2 (q * mileKm))
    | Option.none => PyVal.none

/-- `fahrenheit_to_celsius`: `None`/empty input or parse failure yields
`None`, otherwise `round((x - 32) * 5/9, 2)`. -/
def fahrenheit_to_celsius (v : PyVal) : PyVal :=
  if isNoneOrEmpty v then PyVal.none
  else
    match pyFloatOf v with
    | some q => PyVal.float (round2 ((q - 32) * 5 / 9))
    | Option.none => PyVal.none

/-- `TeslaMetricConverter.convert_value`: type coercion of a raw value per the
field's recorded semantic type; unknown fields infer float vs int from the
presence of a decimal point in the textual form, keeping the value unchanged
when neither parse succeeds. -/
def convert_value (md : Metadata) (f : String) (v : PyVal) : PyVal :=
  if isNoneOrEmpty v then PyVal.none
  else if (md.types.lookup f).isNone then
    -- unknown field: float(value) if '.' in str(value) else int(value);
    -- on ValueError/TypeError the raw value is returned unchanged
    if strHasDot v then
      match pyFloatOf v with
      | some q => if f ∈ LOCATION_FIELDS then PyVal.float q else PyVal.float (round2 q)
      | Option.none => v
    else
      match pyIntOf v with
      | some z => PyVal.int z
      | Option.none => v
  else
    match (md.types.lookup f).getD "" with
    | "real" =>
      match pyFloatOf v with
      | some q => if f ∈ LOCATION_FIELDS then PyVal.float q else PyVal.float (round2 q)
      | Option.none => PyVal.none
    | "integer" =>
      match pyFloatOf v with
      | some q => PyVal.int (truncToward0 q)
      | Option.none => PyVal.none
    | "boolean" =>
      match v with
      | PyVal.bool b => PyVal.bool b
      | PyVal.str s =>
        PyVal.bool (pyLower s = "true" ∨ pyLower s = "1" ∨ pyLower s = "yes")
      | PyVal.int z => PyVal.bool (z ≠ 0)
      | PyVal.float q => PyVal.bool (q ≠ 0)
      | PyVal.jsonv j => PyVal.bool (jsonTruthy j)
      | PyVal.none => PyVal.bool false  -- unreachable: None is filtered at the top
    | _ => PyVal.str (pyStrOf v)

/-- `TeslaMetricConverter.format_value`: `None` → empty string; a location
dict on a location field → its JSON serialization; a float → fixed
two-decimal form; everything else → its direct textual form. -/
def format_value (f : String) (v : PyVal) : String :=
  match v with
  | PyVal.none => ""
  | PyVal.jsonv j =>
    if f ∈ LOCATION_FIELDS ∧ isDict j then jsonDumps j
    else pyStrOf (PyVal.jsonv j)
  | PyVal.float q => formatFloat2 q
  | w => pyStrOf w

/-! ## process_field -/

/-- A wire value object `{stringValue | doubleValue | intValue | boolValue |
numberValue | locationValue | shiftStateValue, invalid?}`: each present
member is `some`. -/
structure ValueObj where
  invalid : Bool := false
  locationValue : Option Json := Option.none
  shiftStateValue : Option String := Option.none
  stringValue : Option String := Option.none
  doubleValue : Option ℚ := Option.none
  intValue : Option ℤ := Option.none
  boolValue : Option Bool := Option.none
  numberValue : Option ℚ := Option.none

/-- The result dict of `process_field`: topic, typed value, MQTT-ready
string. -/
structure FieldResult where
  topic : String
  value : PyVal
  formatted : String

/-- Outcome of the tag-extraction ladder of `process_field`. -/
inductive Extracted
  | invalidV
  | locV (j : Json)
  | raw (v : PyVal)
  | unknownTag

/-- The tag ladder of `process_field` below the `locationValue` case:
`shiftStateValue` (strip a leading `"ShiftState"`), then `stringValue`,
`doubleValue`, `intValue`, `boolValue`, `numberValue` through
`convert_value`; no recognized member → unknown value type. -/
def extractRest (md : Metadata) (f : String) (vo : ValueObj) : Extracted :=
  match vo.shiftStateValue with
  | some s =>
    Extracted.raw (PyVal.str (if pyStartsWith s "ShiftState" then (s.drop 10) else s))
  | Option.none =>
  match vo.stringValue with
  | some s => Extracted.raw (convert_value md f (PyVal.str s))
  | Option.none =>
  match vo.doubleValue with
  | some q => Extracted.raw (convert_value md f (PyVal.float q))
  | Option.none =>
  match vo.intValue with
  | some z => Extracted.raw (convert_value md f (PyVal.int z))
  | Option.none =>
  match vo.boolValue with
  | some b => Extracted.raw (PyVal.bool b)
  | Option.none =>
  match vo.numberValue with
  | some q => Extracted.raw (convert_value md f (PyVal.float q))
  | Option.none => Extracted.unknownTag

/-- The full extraction ladder: `invalid` first, then `locationValue`
(only when the field is a location field), then `extractRest`. -/
def extractRaw (md : Metadata) (f : String) (vo : ValueObj) : Extracted :=
  if vo.invalid then Extracted.invalidV
  else
    match vo.locationValue with
    | some j =>
      if f ∈ LOCATION_FIELDS then Extracted.locV j
      else extractRest md f vo
    | Option.none => extractRest md f vo

/-- `isinstance(raw_value, (int, float)) and raw_value > 50` (a Python bool
is an int with value 0 or 1, so it never exceeds 50). -/
def numGt50 : PyVal → Bool
  | PyVal.int z => 50 < z
  | PyVal.float q => decide (50 < q)
  | PyVal.bool _ => false
  | _ => false

/-- `TeslaMetricConverter.process_field`: tag extraction, then domain
conversion (distance/speed via `miles_to_km` with the topic forced to the
fixed mapping; temperature via `fahrenheit_to_celsius` above 50), then
formatting. -/
def process_field (md : Metadata) (f : String) (vo : ValueObj) : FieldResult :=
  let topic0 := get_mqtt_topic md f
  match extractRaw md f vo with
  | Extracted.invalidV => ⟨topic0, PyVal.none, ""⟩
  | Extracted.unknownTag => ⟨topic0, PyVal.none, ""⟩
  | Extracted.locV j => ⟨topic0, PyVal.jsonv j, jsonDumps j⟩
  | Extracted.raw rv =>
    match DISTANCE_FIELDS.lookup f with
    | some t =>
      let v := miles_to_km rv
      ⟨t, v, format_value f v⟩
    | Option.none =>
    match SPEED_FIELDS.lookup f with
    | some t =>
      let v := miles_to_km rv
      ⟨t, v, format_value f v⟩
    | Option.none =>
      let v := if f ∈ TEMPERATURE_FIELDS ∧ numGt50 rv then fahrenheit_to_celsius rv else rv
      ⟨topic0, v, format_value f v⟩

/-! ## ReconnectionManager -/

/-- `ReconnectionManager`: exponential backoff with jitter. -/
structure ReconnectionManager where
  base_delay : ℚ
  max_delay : ℚ
  jitter : ℚ
  attempts : ℕ

/-- The constructor defaults `ReconnectionManager(base_delay=5, max_delay=300,
jitter=0.1)` with `attempts = 0`, as built by `handle_single_vin`. -/
def ReconnectionManager.default : ReconnectionManager := ⟨5, 300, 1/10, 0⟩

/-- `reset()`: zero the attempt counter. -/
def ReconnectionManager.reset (m : ReconnectionManager) : ReconnectionManager :=
  { m with attempts := 0 }

/-- `next_delay()`. The uniform draw `random.uniform(-jitter_amount,
jitter_amount)` is modelled by the explicit argument `u` (the drawn jitter
offset); the jitter-free behaviour is `u = 0`. Returns the delay and the
updated manager. -/
def ReconnectionManager.next_delay (m : ReconnectionManager) (u : ℚ) :
    ℚ × ReconnectionManager :=
  let m' : ReconnectionManager := { m with attempts := m.attempts + 1 }
  let delay := min (m.base_delay * 2 ^ (m'.attempts - 1)) m.max_delay
  (max m.base_delay (delay + u), m')

/-- The sequence of delays produced by `n` consecutive `next_delay()` calls
with jitter-free draws and no intervening `reset()`. -/
def delaysFrom (m : ReconnectionManager) : ℕ → List ℚ
  | 0 => []
  | n + 1 =>
    let p := m.next_delay 0
    p.1 :: delaysFrom p.2 n

/-! ## handle_single_vin — one iteration of the session loop

One pass of the `while True` body of `handle_single_vin`, indexed by how the
iteration's connect/subscribe/stream phases end. Cancellation re-raises and
exits the loop, so it is not an iteration outcome. -/

inductive CycleOutcome
  /-- `create_tesla_websocket` raises. -/
  | connectFail
  /-- connect succeeds; `subscribe_to_vehicle_data` returns `False`
  (timeout waiting for the confirmation). -/
  | subscribeTimeout
  /-- connect succeeds; the subscribe send/recv raises an exception. -/
  | subscribeRaise
  /-- connect and subscribe succeed; the message loop returns normally
  (stop-streaming signal or transport closed). -/
  | streamEnd
  /-- connect and subscribe succeed; an exception escapes the message
  loop. -/
  | streamRaise

/-- One iteration of `handle_single_vin`'s loop: the manager after the
iteration, the session-level state publications of the iteration (in order),
and the backoff sleep performed, if any. `u` is the jitter draw used when the
iteration reaches `next_delay()`. The key structure of the source: `reset()`
runs immediately after a successful transport connection (before
subscribing), and a `False` from `subscribe_to_vehicle_data` skips the
streaming block with no backoff — only a raised exception reaches the
`next_delay()` / publish-error / sleep path. -/
def sessionCycle (m : ReconnectionManager) (o : CycleOutcome) (u : ℚ) :
    ReconnectionManager × List String × Option ℚ :=
  match o with
  | CycleOutcome.connectFail =>
    let p := m.next_delay u
    (p.2, ["error"], some p.1)
  | CycleOutcome.subscribeTimeout =>
    (m.reset, [], Option.none)
  | CycleOutcome.subscribeRaise =>
    let p := m.reset.next_delay u
    (p.2, ["error"], some p.1)
  | CycleOutcome.streamEnd =>
    (m.reset, ["online"], Option.none)
  | CycleOutcome.streamRaise =>
    let p := m.reset.next_delay u
    (p.2, ["online", "error"], some p.1)

/-! ## process_vehicle_message

The inbound side of the `Streaming` state. The input is the JSON parse
outcome of the received text (`Option.none` = `json.JSONDecodeError`). The
output is `Except.error ()` when an exception escapes
`process_vehicle_message` (reaching the session loop's generic handler), and
otherwise the returned continue/stop flag together with the list of MQTT
publications `(topic, payload)` made while processing (the `state` topic
carries vehicle-state publications). -/

/-- An object member lookup `k in data`. -/
def hasKey (m : List (String × Json)) (k : String) : Bool := (m.lookup k).isSome

/-- `data.get("error", {}).get("type", "unknown")`'s result for an error
member that is an object. -/
def errType (em : List (String × Json)) : Json :=
  (em.lookup "type").getD (Json.jstr "unknown")

/-- The wire value objects are assumed well-typed per tag (string tags carry
strings, numeric tags numbers, and so on — the documented wire format);
`Option.none` for a payload outside that format, whose handling would raise
inside the data-branch `try` (e.g. `.startswith` on a non-string
`shiftStateValue`). `intValue` carries a JSON integer. -/
def valueObjOfJson (vm : List (String × Json)) : Option ValueObj := do
  let inv : Bool :=
    match vm.lookup "invalid" with
    | some (Json.jbool true) => true
    | _ => false
  let lv : Option Json := vm.lookup "locationValue"
  let ssv : Option String ←
    match vm.lookup "shiftStateValue" with
    | Option.none => some Option.none
    | some (Json.jstr s) => some (some s)
    | some _ => Option.none
  let sv : Option String ←
    match vm.lookup "stringValue" with
    | Option.none => some Option.none
    | some (Json.jstr s) => some (some s)
    | some _ => Option.none
  let dv : Option ℚ ←
    match vm.lookup "doubleValue" with
    | Option.none => some Option.none
    | some (Json.num q) => some (some q)
    | some _ => Option.none
  let iv : Option ℤ ←
    match vm.lookup "intValue" with
    | Option.none => some Option.none
    | some (Json.num q) => if q.den = 1 then some (some q.num) else Option.none
    | some _ => Option.none
  let bv : Option Bool ←
    match vm.lookup "boolValue" with
    | Option.none => some Option.none
    | some (Json.jbool b) => some (some b)
    | some _ => Option.none
  let nv : Option ℚ ←
    match vm.lookup "numberValue" with
    | Option.none => some Option.none
    | some (Json.num q) => some (some q)
    | some _ => Option.none
  pure ⟨inv, lv, ssv, sv, dv, iv, bv, nv⟩

/-- Processing of one entry of the `data` list. `some pubs` when the entry
completes (publishing `pubs`); `Option.none` when it raises inside the
branch's `try` (aborting the remaining entries; the exception is caught at
the branch level). A non-container entry raises at `"key" in item`; a
string/list entry raises only when both `"key"` and `"value"` occur in it,
at the `item["key"]` subscript. -/
def dataItemPubs (md : Metadata) (item : Json) : Option (List (String × String)) :=
  match item with
  | Json.obj m =>
    if hasKey m "key" ∧ hasKey m "value" then
      match m.lookup "key" with
      | some (Json.jstr s) =>
        if pyStrip s = "" then some []  -- `not key.strip()` → skip entry
        else
          match m.lookup "value" with
          | some (Json.obj vm) =>
            match valueObjOfJson vm with
            | some vo =>
              let r := process_field md s vo
              some (if r.formatted ≠ "" then [(r.topic, r.formatted)] else [])
            | Option.none => Option.none
          | _ => Option.none  -- membership tests / subscripts on the payload raise
      | _ => some []  -- non-string key: `isinstance(key, str)` fails → skip entry
    else some []
  | Json.jstr s =>
    if pySubstr "key" s ∧ pySubstr "value" s then Option.none else some []
  | Json.arr l =>
    if (l.any (fun j => match j with | Json.jstr t => t = "key" | _ => false)) ∧
        (l.any (fun j => match j with | Json.jstr t => t = "value" | _ => false)) then
      Option.none
    else some []
  | _ => Option.none  -- `in` on a non-container raises TypeError

/-- Fold of the data entries: the publications made, and whether an entry
raised (aborting the rest of the branch body, including the `vin`
publication). -/
def processItems (md : Metadata) : List Json → List (String × String) × Bool
  | [] => ([], false)
  | item :: rest =>
    match dataItemPubs md item with
    | some pubs =>
      let p := processItems md rest
      (pubs ++ p.1, p.2)
    | Option.none => ([], true)

/-- The `vin` metadata publication: paho stringifies numeric payloads and
raises `TypeError` on container payloads (caught by the branch's `try`). -/
def vinPubs (m : List (String × Json)) : List (String × String) :=
  match m.lookup "vin" with
  | Option.none => []
  | some (Json.jstr s) => [("vin", s)]
  | some (Json.num q) => [("vin", if q.den = 1 then toString q.num else pyReprFloat q)]
  | some (Json.jbool b) => [("vin", if b then "True" else "False")]
  | some Json.null => [("vin", "")]
  | some _ => []  -- list/dict payload: publish raises, caught; nothing published

/-- The `data`-list branch and the fallthrough: `online` is published before
the entries are processed; an entry that raises skips the remaining entries
and the `vin` publication. -/
def dataOrFallthrough (md : Metadata) (m : List (String × Json)) :
    Except Unit (Bool × List (String × String)) :=
  match m.lookup "data" with
  | some (Json.arr items) =>
    let p := processItems md items
    Except.ok (true, ("state", "online") :: (p.1 ++ (if p.2 then [] else vinPubs m)))
  | _ => Except.ok (true, [])

/-- `process_vehicle_message`. `Option.none` input models a JSON decode
failure (logged, dropped, continue). A non-object top level raises at
`data.items()`; an `error` member that is not an object raises at `.get`;
a non-string `msg_type` raises at `.startswith`. -/
def process_vehicle_message (md : Metadata) (msg : Option Json) :
    Except Unit (Bool × List (String × String)) :=
  match msg with
  | Option.none => Except.ok (true, [])
  | some (Json.obj m) =>
    if hasKey m "error" then
      match m.lookup "error" with
      | some (Json.obj em) =>
        match errType em with
        | Json.jstr t =>
          if t = "vehicle_disconnected" ∨ t = "vehicle_offline" then
            Except.ok (false, [("state", t)])
          else Except.ok (true, [])
        | _ => Except.ok (true, [])  -- non-string type: not in the list → log, continue
      | _ => Except.error ()  -- error member is no dict: `.get` raises
    else
      match m.lookup "msg_type" with
      | some (Json.jstr s) =>
        if pyStartsWith s "control:hello" then Except.ok (true, [("state", "online")])
        else dataOrFallthrough md m
      | some _ => Except.error ()  -- `.startswith` on a non-string raises
      | Option.none => dataOrFallthrough md m
  | some _ => Except.error ()  -- `data.items()` on a non-object raises

/-- All wire tags of a value object absent (the `else` arm of the extraction
ladder: "Unknown value type"). -/
def noTag (vo : ValueObj) : Bool :=
  vo.locationValue.isNone && vo.shiftStateValue.isNone && vo.stringValue.isNone &&
    vo.doubleValue.isNone && vo.intValue.isNone && vo.boolValue.isNone &&
    vo.numberValue.isNone

/-- The `error` member, when present, is an object (the documented wire
shape; anything else raises at `.get`). -/
def errorMemberOk (m : List (String × Json)) : Bool :=
  match m.lookup "error" with
  | Option.none => true
  | some (Json.obj _) => true
  | some _ => false

/-- The `msg_type` member, when present, is a string (anything else raises
at `.startswith`). -/
def msgTypeMemberOk (m : List (String × Json)) : Bool :=
  match m.lookup "msg_type" with
  | Option.none => true
  | some (Json.jstr _) => true
  | some _ => false

/-- The message matches none of the error / control-hello / data-list
cases. -/
def matchesNoCase (m : List (String × Json)) : Bool :=
  (m.lookup "error").isNone &&
    (match m.lookup "msg_type" with
     | some (Json.jstr s) => !(pyStartsWith s "control:hello")
     | _ => true) &&
    (match m.lookup "data" with
     | some (Json.arr _) => false
     | _ => true)

/-! ## Helper lemmas -/

/-- A string of positive length is not the empty string. -/
theorem ne_empty_of_length_pos {s : String} (h : 0 < s.length) : s ≠ "" := by
  intro he
  rw [he] at h
  simp at h

/-- `Nat.toDigitsCore` never shrinks its accumulator. -/
theorem toDigitsCore_length_le (b : ℕ) :
    ∀ (f n : ℕ) (l : List Char), l.length ≤ (Nat.toDigitsCore b f n l).length := by
  intro f
  induction f with
  | zero => intro n l; simp [Nat.toDigitsCore]
  | succ f ih =>
    intro n l
    simp only [Nat.toDigitsCore]
    split
    · simp
    · exact le_trans (by simp) (ih (n / b) (Nat.digitChar (n % b) :: l))

/-- The decimal rendering of a natural number is non-empty. -/
theorem natRepr_length_pos (n : ℕ) : 0 < (Nat.repr n).length := by
  show 0 < (Nat.toDigits 10 n).asString.length
  have hlen : (Nat.toDigits 10 n).asString.length = (Nat.toDigits 10 n).length := by
    simp [List.asString, String.length]
  rw [hlen]
  simp only [Nat.toDigits, Nat.toDigitsCore]
  split
  · simp
  · exact lt_of_lt_of_le (by simp) (toDigitsCore_length_le 10 n (n / 10) _)

/-- The decimal rendering of an integer is non-empty. -/
theorem intRepr_length_pos (z : ℤ) : 0 < (toString z).length := by
  show 0 < (Int.repr z).length
  cases z with
  | ofNat n => exact natRepr_length_pos n
  | negSucc n =>
    simp only [Int.repr, String.length_append]
    have := natRepr_length_pos (Nat.succ n)
    omega

/-- `f"{q:.2f}"` is never the empty string. -/
theorem formatFloat2_length_pos (q : ℚ) : 0 < (formatFloat2 q).length := by
  simp only [formatFloat2, String.length_append]
  have h : (0 : ℕ) < (String.length ".") := by decide
  omega

/-- `pyReprFloat` is never the empty string. -/
theorem pyReprFloat_length_pos (q : ℚ) : 0 < (pyReprFloat q).length := by
  have h1 : String.length ".0" = 2 := rfl
  have h2 : String.length "." = 1 := rfl
  have h3 : String.length "/" = 1 := rfl
  simp only [pyReprFloat]
  split
  · simp only [String.length_append]
    omega
  · split <;> simp only [String.length_append] <;> omega

/-- `json.dumps` output is never the empty string. -/
theorem jsonDumps_length_pos (j : Json) : 0 < (jsonDumps j).length := by
  cases j with
  | null => decide
  | jbool b => cases b <;> decide
  | num q =>
    rw [jsonDumps]
    split
    · exact intRepr_length_pos q.num
    · exact pyReprFloat_length_pos q
  | jstr s =>
    simp only [jsonDumps, String.length_append]
    have h : (0 : ℕ) < (String.length "\"") := by decide
    omega
  | arr l =>
    simp only [jsonDumps, String.length_append]
    have h : (0 : ℕ) < (String.length "[") := by decide
    omega
  | obj l =>
    simp only [jsonDumps, String.length_append]
    have h : (0 : ℕ) < (String.length "\x7b") := by decide
    omega

/-- `format_value` yields the empty string exactly for `None` and for the
empty string value. -/
theorem format_value_empty_iff (f : String) (v : PyVal) :
    format_value f v = "" ↔ v = PyVal.none ∨ v = PyVal.str "" := by
  cases v with
  | none => simp [format_value]
  | str s => simp [format_value, pyStrOf]
  | int z =>
    have h := ne_empty_of_length_pos (intRepr_length_pos z)
    simp [format_value, pyStrOf, h]
  | float q =>
    have h := ne_empty_of_length_pos (formatFloat2_length_pos q)
    simp [format_value, h]
  | bool b => cases b <;> simp [format_value, pyStrOf]
  | jsonv j =>
    have h := ne_empty_of_length_pos (jsonDumps_length_pos j)
    simp only [format_value]
    split
    · simp [h]
    · simp [pyStrOf, h]

/-! ## Claims about ReconnectPolicy and the session loop -/

/-- C6: with base 5 and max 300, `next_delay()` increments `attempts` by
exactly 1 on every call; the jitter-free envelope over consecutive calls is
5, 10, 20, 40, 80, 160, 300, 300; the returned delay is never below the base
delay for any jitter draw; and `reset()` zeroes `attempts`, after which the
next jitter-free delay is the base delay again. -/
theorem claim_C6 :
    (∀ (m : ReconnectionManager) (u : ℚ),
        ((m.next_delay u).2).attempts = m.attempts + 1)
    ∧ delaysFrom ReconnectionManager.default 8 = [5, 10, 20, 40, 80, 160, 300, 300]
    ∧ (∀ (m : ReconnectionManager) (u : ℚ), m.base_delay ≤ (m.next_delay u).1)
    ∧ (∀ (m : ReconnectionManager), m.reset.attempts = 0)
    ∧ (∀ (n : ℕ),
        (((ReconnectionManager.mk 5 300 (1/10) n).reset).next_delay 0).1 = 5) := by
  refine ⟨fun m u => rfl, ?_, fun m u => le_max_left _ _, fun m => rfl, ?_⟩
  · simp only [delaysFrom, ReconnectionManager.next_delay, ReconnectionManager.default]
    norm_num [min_def, max_def]
  · intro n
    simp only [ReconnectionManager.next_delay, ReconnectionManager.reset]
    norm_num [min_def, max_def]

/-- C1 fails on the code: a subscription timeout does not increment the
attempt counter and performs no backoff. At `attempts = 3`, a cycle whose
subscription times out ends with `attempts = 0` (the reset ran on the
successful transport connection, before subscribing), publishes nothing, and
sleeps nothing — whereas the claim requires the counter to increment to 4 and
the backoff path to be taken. -/
theorem claim_C1_cex :
    sessionCycle (ReconnectionManager.mk 5 300 (1/10) 3) CycleOutcome.subscribeTimeout 0
      = (ReconnectionManager.mk 5 300 (1/10) 0, [], Option.none)
    ∧ (sessionCycle (ReconnectionManager.mk 5 300 (1/10) 3)
        CycleOutcome.subscribeTimeout 0).1.attempts ≠ 3 + 1 := by
  exact ⟨rfl, by decide⟩

/-- C1 (amended): `attempts` resets to 0 on every successful transport
connection, before the subscription is attempted; it increments by 1 on a
failed connection attempt, and a cycle whose subscribe or stream phase raises
ends with `attempts = 1` (reset at connect, then one increment) and sleeps a
backoff delay; a subscription timeout closes the transport and retries
immediately — `attempts` is left at 0, nothing is published, and no backoff
sleep happens. -/
theorem claim_C1 :
    ∀ (m : ReconnectionManager) (u : ℚ),
      ((sessionCycle m CycleOutcome.connectFail u).1.attempts = m.attempts + 1
        ∧ (sessionCycle m CycleOutcome.connectFail u).2.1 = ["error"]
        ∧ (sessionCycle m CycleOutcome.connectFail u).2.2.isSome = true)
      ∧ sessionCycle m CycleOutcome.subscribeTimeout u = (m.reset, [], Option.none)
      ∧ ((sessionCycle m CycleOutcome.subscribeRaise u).1.attempts = 1
        ∧ (sessionCycle m CycleOutcome.subscribeRaise u).2.2.isSome = true)
      ∧ (sessionCycle m CycleOutcome.streamEnd u).1.attempts = 0
      ∧ ((sessionCycle m CycleOutcome.streamRaise u).1.attempts = 1
        ∧ (sessionCycle m CycleOutcome.streamRaise u).2.1 = ["online", "error"]
        ∧ (sessionCycle m CycleOutcome.streamRaise u).2.2.isSome = true) := by
  intro m u
  exact ⟨⟨rfl, rfl, rfl⟩, rfl, ⟨rfl, rfl⟩, rfl, ⟨rfl, rfl, rfl⟩⟩

/-! ## Claims about the unit converters and topic derivation -/

/-- C8: `miles_to_km` returns `round(x * 1.60934, 2)` for every input whose
`float()` coercion succeeds, and `None` for `None`, the empty string, and
unparseable strings; in particular 100 → 160.93, 0 → 0.0, 1 → 1.61. -/
theorem claim_C8 :
    (∀ (v : PyVal) (q : ℚ), pyFloatOf v = some q →
        miles_to_km v = PyVal.float (round2 (q * mileKm)))
    ∧ miles_to_km (PyVal.float 100) = PyVal.float 160.93
    ∧ miles_to_km (PyVal.float 0) = PyVal.float 0
    ∧ miles_to_km (PyVal.float 1) = PyVal.float 1.61
    ∧ miles_to_km PyVal.none = PyVal.none
    ∧ miles_to_km (PyVal.str "") = PyVal.none
    ∧ miles_to_km (PyVal.str "invalid") = PyVal.none := by
  refine ⟨?_, ?_, ?_, ?_, rfl, rfl, ?_⟩
  · intro v q h
    cases v with
    | none => simp [pyFloatOf] at h
    | jsonv j => simp [pyFloatOf] at h
    | str s =>
      have hs : s ≠ "" := by
        intro he
        subst he
        simp [pyFloatOf, pyParseFloat, parseFloatParts, parseUnsignedFloat] at h
      simp only [miles_to_km, isNoneOrEmpty]
      rw [if_neg (by simpa using hs)]
      simp only [pyFloatOf] at h
      simp only [pyFloatOf, h]
    | int z =>
      simp only [pyFloatOf, Option.some.injEq] at h
      subst h
      simp [miles_to_km, isNoneOrEmpty, pyFloatOf]
    | float r =>
      simp only [pyFloatOf, Option.some.injEq] at h
      subst h
      simp [miles_to_km, isNoneOrEmpty, pyFloatOf]
    | bool b =>
      simp only [pyFloatOf, Option.some.injEq] at h
      subst h
      cases b <;> simp [miles_to_km, isNoneOrEmpty, pyFloatOf]
  · simp only [miles_to_km, isNoneOrEmpty, pyFloatOf]
    norm_num [round2, roundHalfEven, Int.fract, mileKm]
  · simp only [miles_to_km, isNoneOrEmpty, pyFloatOf]
    norm_num [round2, roundHalfEven, Int.fract, mileKm]
  · simp only [miles_to_km, isNoneOrEmpty, pyFloatOf]
    norm_num [round2, roundHalfEven, Int.fract, mileKm]
  · have h : parseFloatParts "invalid" = Option.none := by decide
    simp [miles_to_km, isNoneOrEmpty, pyFloatOf, pyParseFloat, h]

/-- `Char.toLower` never yields an ASCII uppercase letter. -/
theorem isUpperAZ_toLower (c : Char) : isUpperAZ (Char.toLower c) = false := by
  by_cases h : c.toNat ≥ 65 ∧ c.toNat ≤ 90
  · have hv : (c.toNat + 32).isValidChar := Or.inl (by omega)
    have hn : (Char.ofNat (c.toNat + 32)).toNat = c.toNat + 32 := by
      simp only [Char.ofNat, hv, dif_pos]
      rfl
    show isUpperAZ (if c.toNat ≥ 65 ∧ c.toNat ≤ 90 then Char.ofNat (c.toNat + 32) else c)
      = false
    rw [if_pos h]
    simp only [isUpperAZ, hn, Bool.and_eq_false_iff]
    right
    simp only [decide_eq_false_iff_not]
    omega
  · show isUpperAZ (if c.toNat ≥ 65 ∧ c.toNat ≤ 90 then Char.ofNat (c.toNat + 32) else c)
      = false
    rw [if_neg h]
    simp only [isUpperAZ, Bool.and_eq_false_iff, decide_eq_false_iff_not]
    omega

/-- `Char.toLower` fixes every character that is not an ASCII uppercase
letter. -/
theorem toLower_eq_self {c : Char} (h : isUpperAZ c = false) : Char.toLower c = c := by
  show (if c.toNat ≥ 65 ∧ c.toNat ≤ 90 then Char.ofNat (c.toNat + 32) else c) = c
  rw [if_neg]
  simp only [isUpperAZ, Bool.and_eq_false_iff, decide_eq_false_iff_not] at h
  omega

/-- The first substitution fixes strings without uppercase letters. -/
theorem sub1_id : ∀ l : List Char, (∀ c ∈ l, isUpperAZ c = false) → sub1 l = l
  | [], _ => rfl
  | [_], _ => rfl
  | [_, _], _ => rfl
  | [_, _, _], _ => rfl
  | a :: b :: c :: d :: t, h => by
    have ha := h a (by simp)
    rw [sub1, ha]
    simp only [Bool.false_and, Bool.false_eq_true, if_false]
    exact congrArg (a :: ·) (sub1_id (b :: c :: d :: t) (fun x hx => h x (by simp [hx])))

/-- The second substitution fixes strings without uppercase letters. -/
theorem sub2_id : ∀ l : List Char, (∀ c ∈ l, isUpperAZ c = false) → sub2 l = l
  | [], _ => rfl
  | [_], _ => rfl
  | a :: b :: t, h => by
    have hb := h b (by simp)
    rw [sub2, hb]
    simp only [Bool.and_false, Bool.false_eq_true, if_false]
    exact congrArg (a :: ·) (sub2_id (b :: t) (fun x hx => h x (by simp [hx])))

/-- Lowercasing leaves no uppercase letters. -/
theorem map_toLower_noUpper (l : List Char) :
    ∀ c ∈ l.map Char.toLower, isUpperAZ c = false := by
  intro c hc
  obtain ⟨d, _, rfl⟩ := List.mem_map.1 hc
  exact isUpperAZ_toLower d

/-- Lowercasing fixes strings without uppercase letters. -/
theorem map_toLower_id (l : List Char) (h : ∀ c ∈ l, isUpperAZ c = false) :
    l.map Char.toLower = l := by
  induction l with
  | nil => rfl
  | cons a t ih =>
    simp only [List.map_cons, List.cons.injEq]
    exact ⟨toLower_eq_self (h a (by simp)), ih (fun x hx => h x (by simp [hx]))⟩

/-- C9: topic derivation is deterministic and idempotent, and maps the five
canonical examples as the spec states. -/
theorem claim_C9 :
    (∀ s, camel_to_snake (camel_to_snake s) = camel_to_snake s)
    ∧ (∀ s t, s = t → camel_to_snake s = camel_to_snake t)
    ∧ camel_to_snake "VehicleSpeed" = "vehicle_speed"
    ∧ camel_to_snake "EstBatteryRange" = "est_battery_range"
    ∧ camel_to_snake "ACChargingPower" = "ac_charging_power"
    ∧ camel_to_snake "TestCase" = "test_case"
    ∧ camel_to_snake "simple" = "simple" := by
  refine ⟨?_, fun s t h => congrArg camel_to_snake h, ?_, ?_, ?_, ?_, ?_⟩
  · intro s
    show camel_to_snake (String.mk ((sub2 (sub1 s.data)).map Char.toLower))
      = camel_to_snake s
    have hU := map_toLower_noUpper (sub2 (sub1 s.data))
    show String.mk ((sub2 (sub1 ((sub2 (sub1 s.data)).map Char.toLower))).map Char.toLower)
      = camel_to_snake s
    rw [sub1_id _ hU, sub2_id _ hU, map_toLower_id _ hU]
    rfl
  all_goals decide

/-! ## Claims about message classification -/

/-- C2: for a message whose `error` member is an object (the documented wire
shape of an error indicator), the session publishes the error type as the
vehicle state and stops streaming (returns `False`) exactly when the type is
`vehicle_disconnected` or `vehicle_offline`; any other type — including a
missing or non-string type — logs and continues with no state published. -/
theorem claim_C2 (m em : List (String × Json))
    (h : m.lookup "error" = some (Json.obj em)) :
    (∀ s, errType em = Json.jstr s →
      (s = "vehicle_disconnected" ∨ s = "vehicle_offline") →
      process_vehicle_message defaultMetadata (some (Json.obj m))
        = Except.ok (false, [("state", s)]))
    ∧ (∀ s, errType em = Json.jstr s →
      ¬(s = "vehicle_disconnected" ∨ s = "vehicle_offline") →
      process_vehicle_message defaultMetadata (some (Json.obj m))
        = Except.ok (true, []))
    ∧ ((∀ s, errType em ≠ Json.jstr s) →
      process_vehicle_message defaultMetadata (some (Json.obj m))
        = Except.ok (true, [])) := by
  have hk : hasKey m "error" = true := by simp [hasKey, h]
  refine ⟨?_, ?_, ?_⟩
  · intro s hs hmem
    simp only [process_vehicle_message, hk, if_true, h, hs]
    rw [if_pos hmem]
  · intro s hs hmem
    simp only [process_vehicle_message, hk, if_true, h, hs]
    rw [if_neg hmem]
  · intro hns
    have het : ∀ t, errType em = Json.jstr t → False := fun t ht => hns t ht
    simp only [process_vehicle_message, hk, if_true, h]

/-- C2 witness: a `vehicle_offline` error message publishes state
`vehicle_offline` and signals stop. -/
theorem claim_C2_witness :
    process_vehicle_message defaultMetadata
        (some (Json.obj [("error", Json.obj [("type", Json.jstr "vehicle_offline")])]))
      = Except.ok (false, [("state", "vehicle_offline")]) :=
  (claim_C2 [("error", Json.obj [("type", Json.jstr "vehicle_offline")])]
    [("type", Json.jstr "vehicle_offline")] rfl).1 "vehicle_offline" rfl (Or.inr rfl)

/-- C7 fails on the code: a parseable payload whose top level is not a JSON
object (here a JSON array) raises `AttributeError` at `data.items()`, and the
exception escapes `process_vehicle_message` to the session loop. -/
theorem claim_C7_cex :
    process_vehicle_message defaultMetadata (some (Json.arr [])) = Except.error () := rfl

/-- The data-list branch and the fallthrough never raise. -/
theorem dataOrFallthrough_ok (md : Metadata) (m : List (String × Json)) :
    ∃ r, dataOrFallthrough md m = Except.ok r := by
  rw [dataOrFallthrough]
  cases hd : m.lookup "data" with
  | none => exact ⟨_, rfl⟩
  | some j => cases j <;> exact ⟨_, rfl⟩

/-- C7 (amended): an unparseable payload is dropped with continue; a
parseable payload processes without an escaping exception provided its top
level is an object whose `error` member (when present) is an object and whose
`msg_type` member (when present) is a string — the documented wire shapes;
for such an object matching none of the error / control-hello / data-list
cases the result is continue with nothing published. (A parseable payload
outside those shapes — a non-object top level, a non-object `error`, a
non-string `msg_type` — raises, and the exception escapes to the session
loop, where it is handled as a connection failure.) -/
theorem claim_C7 (m : List (String × Json))
    (he : errorMemberOk m = true) (hm : msgTypeMemberOk m = true) :
    (process_vehicle_message defaultMetadata Option.none = Except.ok (true, []))
    ∧ (∃ r, process_vehicle_message defaultMetadata (some (Json.obj m)) = Except.ok r)
    ∧ (matchesNoCase m = true →
        process_vehicle_message defaultMetadata (some (Json.obj m))
          = Except.ok (true, [])) := by
  refine ⟨rfl, ?_, ?_⟩
  · cases hj : m.lookup "error" with
    | some j =>
      have hk : hasKey m "error" = true := by simp [hasKey, hj]
      cases j with
      | obj em =>
        simp only [process_vehicle_message, hk, if_true, hj]
        cases errType em with
        | jstr t =>
          refine ⟨if t = "vehicle_disconnected" ∨ t = "vehicle_offline"
            then (false, [("state", t)]) else (true, []), ?_⟩
          show (if t = "vehicle_disconnected" ∨ t = "vehicle_offline"
            then Except.ok (false, [("state", t)]) else Except.ok (true, [])) = _
          split <;> rfl
        | null => exact ⟨_, rfl⟩
        | jbool b => exact ⟨_, rfl⟩
        | num q => exact ⟨_, rfl⟩
        | arr l => exact ⟨_, rfl⟩
        | obj l => exact ⟨_, rfl⟩
      | null => simp [errorMemberOk, hj] at he
      | jbool b => simp [errorMemberOk, hj] at he
      | num q => simp [errorMemberOk, hj] at he
      | jstr s => simp [errorMemberOk, hj] at he
      | arr l => simp [errorMemberOk, hj] at he
    | none =>
      have hk : hasKey m "error" = false := by simp [hasKey, hj]
      simp only [process_vehicle_message, hk, Bool.false_eq_true, if_false]
      cases hmt : m.lookup "msg_type" with
      | none => exact dataOrFallthrough_ok defaultMetadata m
      | some j =>
        cases j with
        | jstr s =>
          by_cases hh : pyStartsWith s "control:hello" = true
          · simp only [hh, if_true]
            exact ⟨_, rfl⟩
          · simp only [hh, Bool.false_eq_true, if_false]
            exact dataOrFallthrough_ok defaultMetadata m
        | null => simp [msgTypeMemberOk, hmt] at hm
        | jbool b => simp [msgTypeMemberOk, hmt] at hm
        | num q => simp [msgTypeMemberOk, hmt] at hm
        | arr l => simp [msgTypeMemberOk, hmt] at hm
        | obj l => simp [msgTypeMemberOk, hmt] at hm
  · intro hnc
    simp only [matchesNoCase, Bool.and_eq_true] at hnc
    obtain ⟨⟨h1, h2⟩, h3⟩ := hnc
    have hj : m.lookup "error" = Option.none := Option.isNone_iff_eq_none.1 h1
    have hk : hasKey m "error" = false := by simp [hasKey, hj]
    have hdata : dataOrFallthrough defaultMetadata m = Except.ok (true, []) := by
      rw [dataOrFallthrough]
      cases hd : m.lookup "data" with
      | none => rfl
      | some j =>
        cases j with
        | arr l => rw [hd] at h3; simp at h3
        | null => rfl
        | jbool b => rfl
        | num q => rfl
        | jstr s => rfl
        | obj l => rfl
    simp only [process_vehicle_message, hk, Bool.false_eq_true, if_false]
    cases hmt : m.lookup "msg_type" with
    | none => exact hdata
    | some j =>
      cases j with
      | jstr s =>
        rw [hmt] at h2
        simp only [Bool.not_eq_eq_eq_not, Bool.not_true] at h2
        simp only [h2, Bool.false_eq_true, if_false]
        exact hdata
      | null => simp [msgTypeMemberOk, hmt] at hm
      | jbool b => simp [msgTypeMemberOk, hmt] at hm
      | num q => simp [msgTypeMemberOk, hmt] at hm
      | arr l => simp [msgTypeMemberOk, hmt] at hm
      | obj l => simp [msgTypeMemberOk, hmt] at hm

/-- C7 witness: an object message with none of the recognized members is a
no-op continue. -/
theorem claim_C7_witness :
    process_vehicle_message defaultMetadata (some (Json.obj [("hello", Json.null)]))
      = Except.ok (true, []) :=
  (claim_C7 [("hello", Json.null)] rfl rfl).2.2 rfl

/-! ## Claims about process_field -/

/-- C3: for every field of the distance or speed maps and every numeric raw
value, the topic is forced to the fixed `*_km` / `*_kmh` name regardless of
the loaded metadata's topic derivation, and the value is the miles→km
conversion (× 1.60934, rounded to 2 decimals) of the coerced value; a raw
100 yields 160.93 under the fixed km topic. -/
theorem claim_C3 :
    (∀ (md : Metadata) (p : String × String) (v : ℚ),
        p ∈ DISTANCE_FIELDS ∨ p ∈ SPEED_FIELDS →
        (process_field md p.1 { doubleValue := some v }).topic = p.2)
    ∧ (∀ (p : String × String) (v : ℚ),
        p ∈ DISTANCE_FIELDS ∨ p ∈ SPEED_FIELDS →
        (process_field defaultMetadata p.1 { doubleValue := some v }).value
          = PyVal.float (round2 (round2 v * mileKm)))
    ∧ process_field defaultMetadata "Odometer" { doubleValue := some 100 }
        = ⟨"odometer_km", PyVal.float 160.93, "160.93"⟩ := by
  refine ⟨?_, ?_, ?_⟩
  · intro md p v h
    rcases h with h | h <;> fin_cases h <;>
      simp +decide [process_field, extractRaw, extractRest, get_mqtt_topic,
        DISTANCE_FIELDS, SPEED_FIELDS, List.lookup]
  · intro p v h
    rcases h with h | h <;> fin_cases h <;>
      simp +decide [process_field, extractRaw, extractRest, convert_value,
        defaultMetadata, DISTANCE_FIELDS, SPEED_FIELDS, TEMPERATURE_FIELDS,
        LOCATION_FIELDS, get_mqtt_topic, miles_to_km, isNoneOrEmpty, pyFloatOf,
        List.lookup]
  · simp +decide [process_field, extractRaw, extractRest, convert_value,
      defaultMetadata, DISTANCE_FIELDS, SPEED_FIELDS, TEMPERATURE_FIELDS,
      LOCATION_FIELDS, get_mqtt_topic, miles_to_km, isNoneOrEmpty, pyFloatOf,
      format_value, formatFloat2, mileKm, round2, roundHalfEven, padZeros,
      List.lookup]
    norm_num [Int.fract]
    rfl

/-- C4: for the temperature fields, a coerced numeric value above 50 is
converted Fahrenheit→Celsius (`round((v - 32) * 5/9, 2)`), a value of at most
50 is published unconverted; 98.6 converts to 37.0 and 20 stays 20. -/
theorem claim_C4 :
    (∀ (f : String) (q : ℚ), f ∈ TEMPERATURE_FIELDS →
        (50 < round2 q →
          (process_field defaultMetadata f { doubleValue := some q }).value
            = PyVal.float (round2 ((round2 q - 32) * 5 / 9)))
        ∧ (round2 q ≤ 50 →
          (process_field defaultMetadata f { doubleValue := some q }).value
            = PyVal.float (round2 q)))
    ∧ (process_field defaultMetadata "OutsideTemp" { doubleValue := some 98.6 }).value
        = PyVal.float 37
    ∧ (process_field defaultMetadata "InsideTemp" { doubleValue := some 20 }).value
        = PyVal.float 20 := by
  refine ⟨?_, ?_, ?_⟩
  · intro f q hf
    fin_cases hf <;>
      constructor <;> intro hq <;>
        simp +decide [process_field, extractRaw, extractRest, convert_value,
          defaultMetadata, DISTANCE_FIELDS, SPEED_FIELDS, TEMPERATURE_FIELDS,
          LOCATION_FIELDS, get_mqtt_topic, fahrenheit_to_celsius, isNoneOrEmpty,
          pyFloatOf, numGt50, List.lookup, hq, not_lt_of_le]
  · simp +decide [process_field, extractRaw, extractRest, convert_value,
      defaultMetadata, DISTANCE_FIELDS, SPEED_FIELDS, TEMPERATURE_FIELDS,
      LOCATION_FIELDS, get_mqtt_topic, fahrenheit_to_celsius, isNoneOrEmpty,
      pyFloatOf, numGt50, List.lookup]
    norm_num [round2, roundHalfEven, Int.fract]
  · simp +decide [process_field, extractRaw, extractRest, convert_value,
      defaultMetadata, DISTANCE_FIELDS, SPEED_FIELDS, TEMPERATURE_FIELDS,
      LOCATION_FIELDS, get_mqtt_topic, fahrenheit_to_celsius, isNoneOrEmpty,
      pyFloatOf, numGt50, List.lookup]
    norm_num [round2, roundHalfEven, Int.fract]

/-- C5 fails on the code: the `formattedString` can be empty with the invalid
flag unset and a recognized tag present — a `stringValue` of `"abc"` on the
real-typed field `OutsideTemp` fails numeric coercion, so the result is
suppressed even though the tag was recognized. -/
theorem claim_C5_cex :
    (process_field defaultMetadata "OutsideTemp"
        { stringValue := some "abc" }).formatted = ""
    ∧ ({ stringValue := some "abc" } : ValueObj).invalid = false
    ∧ ({ stringValue := some "abc" } : ValueObj).stringValue.isSome = true := by
  refine ⟨?_, rfl, rfl⟩
  have hp : parseFloatParts "abc" = Option.none := by decide
  simp +decide [process_field, extractRaw, extractRest, convert_value,
    defaultMetadata, DISTANCE_FIELDS, SPEED_FIELDS, TEMPERATURE_FIELDS,
    LOCATION_FIELDS, get_mqtt_topic, isNoneOrEmpty, pyFloatOf, pyParseFloat, hp,
    numGt50, format_value, List.lookup]

/-- C5 (amended): `formattedString` is the empty string exactly when the
resulting value is no value (`None`) or the empty string. The invalid flag
and an unrecognized tag always produce no value (hence an empty string), but
conversion failures — an unparseable value on a numeric field, an empty
coerced string — are also suppressed. -/
theorem claim_C5 (md : Metadata) (f : String) (vo : ValueObj) :
    ((process_field md f vo).formatted = "" ↔
      ((process_field md f vo).value = PyVal.none
        ∨ (process_field md f vo).value = PyVal.str ""))
    ∧ (vo.invalid = true → (process_field md f vo).value = PyVal.none)
    ∧ (noTag vo = true → (process_field md f vo).value = PyVal.none) := by
  refine ⟨?_, ?_, ?_⟩
  · cases hE : extractRaw md f vo with
    | invalidV => simp [process_field, hE]
    | unknownTag => simp [process_field, hE]
    | locV j =>
      have h := ne_empty_of_length_pos (jsonDumps_length_pos j)
      simp [process_field, hE, h]
    | raw rv =>
      simp only [process_field, hE]
      cases hd : DISTANCE_FIELDS.lookup f with
      | some t => simpa using format_value_empty_iff f (miles_to_km rv)
      | none =>
        cases hs : SPEED_FIELDS.lookup f with
        | some t => simpa using format_value_empty_iff f (miles_to_km rv)
        | none => simpa using format_value_empty_iff f _
  · intro h
    have hE : extractRaw md f vo = Extracted.invalidV := by simp [extractRaw, h]
    simp [process_field, hE]
  · intro h
    by_cases hi : vo.invalid = true
    · have hE : extractRaw md f vo = Extracted.invalidV := by simp [extractRaw, hi]
      simp [process_field, hE]
    · simp only [noTag, Bool.and_eq_true] at h
      obtain ⟨⟨⟨⟨⟨⟨h1, h2⟩, h3⟩, h4⟩, h5⟩, h6⟩, h7⟩ := h
      have hE : extractRaw md f vo = Extracted.unknownTag := by
        simp [extractRaw, extractRest, hi, Option.isNone_iff_eq_none.1 h1,
          Option.isNone_iff_eq_none.1 h2, Option.isNone_iff_eq_none.1 h3,
          Option.isNone_iff_eq_none.1 h4, Option.isNone_iff_eq_none.1 h5,
          Option.isNone_iff_eq_none.1 h6, Option.isNone_iff_eq_none.1 h7]
      simp [process_field, hE]

/-- A key absent from a constant-value re-keying of a pair list is absent
from the original list. -/
theorem lookup_fst_map_eq_none {c f : String} :
    ∀ (l : List (String × String)),
      (l.map (fun p => (p.1, c))).lookup f = Option.none →
      l.lookup f = Option.none := by
  intro l
  induction l with
  | nil => intro _; rfl
  | cons a t ih =>
    intro h
    simp only [List.map_cons, List.lookup] at h ⊢
    by_cases he : f == a.1
    · simp [he] at h
    · simp only [he, Bool.false_eq_true, if_false] at h ⊢
      exact ih h

/-- `Option.or` is `none` only when both sides are. -/
theorem or_eq_none {α : Type} {a b : Option α} (h : a.or b = Option.none) :
    a = Option.none ∧ b = Option.none := by
  cases a <;> cases b <;> simp_all [Option.or]

/-- A field without a metadata entry in the built-in table is in none of the
distance/speed maps. -/
theorem defaultMetadata_none_distance_speed {f : String}
    (h : defaultMetadata.types.lookup f = Option.none) :
    DISTANCE_FIELDS.lookup f = Option.none ∧ SPEED_FIELDS.lookup f = Option.none := by
  simp only [defaultMetadata, List.lookup_append] at h
  obtain ⟨h12, -⟩ := or_eq_none h
  obtain ⟨h1, -⟩ := or_eq_none h12
  obtain ⟨hd, hs⟩ := or_eq_none h1
  exact ⟨lookup_fst_map_eq_none DISTANCE_FIELDS hd,
    lookup_fst_map_eq_none SPEED_FIELDS hs⟩

/-- C10 fails as stated at the empty string: `""` has no numeric parse, yet
`convert_value` does not return it unchanged — the empty-input filter maps it
to `None`, and the field is suppressed rather than published as-is. -/
theorem claim_C10_cex :
    defaultMetadata.types.lookup "UnknownField" = Option.none
    ∧ pyParseFloat "" = Option.none
    ∧ pyParseInt "" = Option.none
    ∧ convert_value defaultMetadata "UnknownField" (PyVal.str "") = PyVal.none
    ∧ PyVal.none ≠ PyVal.str ""
    ∧ (process_field defaultMetadata "UnknownField"
        { stringValue := some "" }).formatted = "" := by
  refine ⟨by decide, by decide, by decide, ?_, by simp, ?_⟩
  · simp [convert_value, isNoneOrEmpty]
  · simp +decide [process_field, extractRaw, extractRest, convert_value,
      defaultMetadata, DISTANCE_FIELDS, SPEED_FIELDS, TEMPERATURE_FIELDS,
      LOCATION_FIELDS, get_mqtt_topic, isNoneOrEmpty, numGt50, format_value,
      List.lookup]

/-- C10 (amended): for a field with no metadata entry, a *non-empty*
`stringValue` with no numeric parse is returned unchanged by `convert_value`
and published as-is (its `formattedString` is the string itself); for a field
whose recorded semantic type is real or integer, the same value yields `None`
and an empty `formattedString`, so it is suppressed. -/
theorem claim_C10 :
    (∀ (f s : String),
        defaultMetadata.types.lookup f = Option.none →
        pyParseFloat s = Option.none → pyParseInt s = Option.none → s ≠ "" →
        convert_value defaultMetadata f (PyVal.str s) = PyVal.str s
        ∧ (process_field defaultMetadata f { stringValue := some s }).formatted = s)
    ∧ (∀ (md : Metadata) (f s : String),
        (md.types.lookup f = some "real" ∨ md.types.lookup f = some "integer") →
        pyParseFloat s = Option.none →
        convert_value md f (PyVal.str s) = PyVal.none
        ∧ (process_field md f { stringValue := some s }).formatted = "") := by
  constructor
  · intro f s hf hpf hpi hne
    have hcv : convert_value defaultMetadata f (PyVal.str s) = PyVal.str s := by
      simp only [convert_value, isNoneOrEmpty]
      rw [if_neg (by simpa using hne), hf]
      simp only [Option.isNone_none, if_true]
      by_cases hd : strHasDot (PyVal.str s) = true
      · simp [hd, pyFloatOf, hpf]
      · simp only [Bool.not_eq_true] at hd
        simp [hd, pyIntOf, hpi]
    obtain ⟨hdist, hspeed⟩ := defaultMetadata_none_distance_speed hf
    refine ⟨hcv, ?_⟩
    simp [process_field, extractRaw, extractRest, hcv, hdist, hspeed, numGt50,
      format_value, pyStrOf]
  · intro md f s hf hpf
    have hcv : convert_value md f (PyVal.str s) = PyVal.none := by
      by_cases hse : s = ""
      · subst hse; simp [convert_value, isNoneOrEmpty]
      · simp only [convert_value, isNoneOrEmpty]
        rw [if_neg (by simpa using hse)]
        rcases hf with hf | hf <;>
          simp [hf, pyFloatOf, hpf]
    refine ⟨hcv, ?_⟩
    simp only [process_field, extractRaw, extractRest, hcv]
    cases hd : DISTANCE_FIELDS.lookup f with
    | some t => simp [miles_to_km, isNoneOrEmpty, format_value]
    | none =>
      cases hs : SPEED_FIELDS.lookup f with
      | some t => simp [miles_to_km, isNoneOrEmpty, format_value]
      | none => simp [numGt50, format_value]

end TeslaBridge
